import Mathlib

/-!
Shallow embedding of the MemoryLeek/party-api guestbook service.

The embedding follows the Rust source:
  src/main.rs   RegisterRequest, Visitor (public view), api, add_visitor, list_visitors
  src/db.rs     Visitor (admin view / full row), init (schema: nick UNIQUE, NOT NULL on
                created_at/ip/nick, id INTEGER PRIMARY KEY)
  src/admin.rs  routes (API_KEY gate), list_visitors (admin), delete_visitor
  src/error.rs  ApiError, From<sqlx Error>, From<BoxError> (governor)
  src/time.rs   TimeService (now() injected; modelled as an explicit timestamp argument)

The SQLite storage engine and the tower_governor rate limiter are dependencies of the
repository; they are modelled by their documented contracts: the UNIQUE and NOT NULL
constraints of the schema created in db.rs (a duplicate nick fails with SQLite error
code 2067, message pinned by the repository test can_only_register_single_nick), and
the governor GCRA cell-rate algorithm with the configuration built in main.rs
(per_second(60) sets the replenish interval to 60 seconds, burst_size(3) the burst
capacity, per key extracted from the client).
-/

namespace PartyApi

/-- Timestamps produced by the injected TimeService (chrono DateTime, src/time.rs);
modelled as an abstract tick. -/
abbrev Timestamp := Nat

/-- Peer socket address delivered by ConnectInfo (main.rs add_visitor). -/
structure SocketAddr where
  ip : String
  port : Nat
deriving DecidableEq, Repr

/-- Rust SocketAddr to_string: the IP text, a colon, then the port (main.rs line 91,
pinned by the repository tests as "127.0.0.1:8080"). -/
def SocketAddr.toString (a : SocketAddr) : String :=
  a.ip ++ ":" ++ Nat.repr a.port

/-- An HTTP header value as raw bytes (http crate HeaderValue). -/
structure HeaderValue where
  bytes : String
deriving DecidableEq, Repr

/-- HeaderValue to_str succeeds only on visible ASCII content (http crate contract for
the call at main.rs line 89). -/
def HeaderValue.toStr (v : HeaderValue) : Option String :=
  if v.bytes.data.all (fun c => c = '\t' || (32 ≤ c.toNat && c.toNat < 127)) then
    some v.bytes
  else
    none

/-- The request headers consulted by add_visitor: the values under X-Forwarded-For in
order; HeaderMap get returns the first one (main.rs line 88). -/
structure Headers where
  xForwardedFor : List HeaderValue
deriving DecidableEq, Repr

/-- The ip value bound by add_visitor (main.rs lines 86-91):
headers.get("X-Forwarded-For").map(to_str().ok()).unwrap_or(Some(addr.to_string())).
When the header is present but not valid visible ASCII this is none, which the
NOT NULL column constraint on ip then rejects. -/
def resolveIp (headers : Headers) (addr : SocketAddr) : Option String :=
  match headers.xForwardedFor.head? with
  | some v => v.toStr
  | none => some addr.toString

/-- Deserialized registration payload (main.rs RegisterRequest): nick mandatory,
the rest optional. -/
structure RegisterRequest where
  nick : String
  group : Option String
  email : Option String
  extra : Option String
deriving DecidableEq, Repr

/-- serde deserialization of the RegisterRequest body: the nick field is required
(a missing nick fails to deserialize), the optional fields default to none; no
further validation is applied to any field (main.rs lines 31-37). -/
def parseRegisterRequest (nick group email extra : Option String) :
    Option RegisterRequest :=
  match nick with
  | none => none
  | some n => some ⟨n, group, email, extra⟩

/-- Full visitor row (db.rs Visitor; the admin view). -/
structure DbVisitor where
  id : Int
  created_at : Timestamp
  ip : String
  nick : String
  group : Option String
  email : Option String
  extra : Option String
deriving DecidableEq, Repr

/-- The visitor table as created by db.rs init: rows plus the next rowid that
INTEGER PRIMARY KEY will assign. -/
structure DbState where
  rows : List DbVisitor
  nextId : Int
deriving DecidableEq, Repr

/-- Failures of the INSERT in add_visitor, per the schema of db.rs init:
the UNIQUE constraint on nick (SQLite error code 2067) and the NOT NULL
constraint on ip (any other database error). -/
inductive SqlxError where
  | uniqueNick
  | notNullIp
deriving DecidableEq, Repr

/-- The INSERT issued by add_visitor (main.rs lines 82-97) against the schema of
db.rs init: NOT NULL on ip rejects a null bind, the UNIQUE constraint on nick
rejects a duplicate, otherwise the row is appended with the next assigned id.
A failed insert writes nothing. -/
def insertVisitor (db : DbState) (created_at : Timestamp) (ip : Option String)
    (nick : String) (group email extra : Option String) :
    Except SqlxError DbState :=
  match ip with
  | none => .error .notNullIp
  | some ipVal =>
    if db.rows.any (fun v => v.nick == nick) then
      .error .uniqueNick
    else
      .ok ⟨db.rows ++ [⟨db.nextId, created_at, ipVal, nick, group, email, extra⟩],
           db.nextId + 1⟩

/-- Wire error of error.rs ApiError: HTTP status plus the error text serialized as
the json object with single key error. -/
structure ApiError where
  code : Nat
  error : String
deriving DecidableEq, Repr

/-- error.rs From<sqlx Error>: database error code 2067 maps to 400 BAD_REQUEST with
the database error text (pinned by the repository test can_only_register_single_nick);
anything else maps to 500 INTERNAL_SERVER_ERROR with the error text. -/
def ApiError.ofSqlx : SqlxError → ApiError
  | .uniqueNick => ⟨400, "(code: 2067) UNIQUE constraint failed: visitor.nick"⟩
  | .notNullIp => ⟨500, "(code: 1299) NOT NULL constraint failed: visitor.ip"⟩

/-- Public view of a visitor (main.rs Visitor): only id, nick and group exist in
this projection. -/
structure Visitor where
  id : Int
  nick : String
  group : Option String
deriving DecidableEq, Repr

/-- Response bodies the service produces. -/
inductive Body where
  | empty
  | publicList (visitors : List Visitor)
  | adminList (visitors : List DbVisitor)
  | jsonError (message : String)
deriving DecidableEq, Repr

/-- An HTTP response: status code and body. -/
structure Response where
  status : Nat
  body : Body
deriving DecidableEq, Repr

/-- error.rs IntoResponse for ApiError: the status code with the serialized
json error object. -/
def ApiError.toResponse (e : ApiError) : Response :=
  ⟨e.code, .jsonError e.error⟩

/-- main.rs add_visitor: binds time.now(), the resolved ip, and the request fields
into the INSERT; 201 CREATED with empty body on success, the mapped ApiError
response on failure, the store untouched on failure. -/
def addVisitor (now : Timestamp) (addr : SocketAddr) (headers : Headers)
    (db : DbState) (request : RegisterRequest) : Response × DbState :=
  match insertVisitor db now (resolveIp headers addr)
      request.nick request.group request.email request.extra with
  | .error e => ((ApiError.ofSqlx e).toResponse, db)
  | .ok db2 => (⟨201, .empty⟩, db2)

/-- main.rs list_visitors: SELECT id, nick, group FROM visitor, 200 OK with the
public projection of every row in store order. -/
def listVisitors (db : DbState) : Response :=
  ⟨200, .publicList (db.rows.map (fun v => ⟨v.id, v.nick, v.group⟩))⟩

/-- Insert a row into a list sorted by ascending id (helper for ORDER BY id). -/
def insertById (v : DbVisitor) : List DbVisitor → List DbVisitor
  | [] => [v]
  | w :: ws => if v.id ≤ w.id then v :: w :: ws else w :: insertById v ws

/-- Sort rows by ascending id (the ORDER BY id of admin.rs list_visitors). -/
def sortById : List DbVisitor → List DbVisitor
  | [] => []
  | v :: vs => insertById v (sortById vs)

/-- admin.rs list_visitors: SELECT star FROM visitor ORDER BY id, 200 OK with every
full row (the admin view). -/
def adminListVisitors (db : DbState) : Response :=
  ⟨200, .adminList (sortById db.rows)⟩

/-- admin.rs delete_visitor: DELETE FROM visitor WHERE id matches; 404 NOT_FOUND when
no row was affected, 204 NO_CONTENT otherwise. -/
def deleteVisitor (id : Int) (db : DbState) : Response × DbState :=
  let affected := db.rows.countP (fun v => v.id == id)
  let db2 : DbState := ⟨db.rows.filter (fun v => !(v.id == id)), db.nextId⟩
  if affected = 0 then (⟨404, .empty⟩, db2) else (⟨204, .empty⟩, db2)

/-- The admin requests routed under /admin (admin.rs routes). -/
inductive AdminRequest where
  | listVisitors
  | deleteVisitor (id : Int)
deriving DecidableEq, Repr

/-- The response of the router for a path no route matches. -/
def unmatchedRouteResponse : Response := ⟨404, .empty⟩

/-- tower_http ValidateRequestHeaderLayer bearer(key): the Authorization header must
equal the string Bearer followed by a space and the key (admin.rs lines 22-26). -/
def bearerValid (key : String) (authorization : Option String) : Bool :=
  authorization == some ("Bearer " ++ key)

/-- The handler an authorized admin request reaches (admin.rs). -/
def adminHandle (req : AdminRequest) (db : DbState) : Response × DbState :=
  match req with
  | .listVisitors => (adminListVisitors db, db)
  | .deleteVisitor id => deleteVisitor id db

/-- admin.rs routes: when API_KEY is unset no admin route is mounted, so any admin
path falls through to the router's unmatched response; when set, the bearer
validation layer answers 401 UNAUTHORIZED before the handler unless the
Authorization header carries exactly the configured key. -/
def adminRoutes (apiKey : Option String) (authorization : Option String)
    (req : AdminRequest) (db : DbState) : Response × DbState :=
  match apiKey with
  | none => (unmatchedRouteResponse, db)
  | some key =>
    if bearerValid key authorization then adminHandle req db
    else (⟨401, .empty⟩, db)

/-- The rate-limit configuration built in main.rs api (lines 52-61):
per_second sets the interval in seconds after which one element of the quota is
replenished (tower_governor contract), burst_size the burst capacity. The source
uses per_second(60) and burst_size(3). -/
structure GovernorConfig where
  perSecond : Nat
  burstSize : Nat
deriving DecidableEq, Repr

/-- The configuration of the register route's limiter as built in main.rs api:
per_second(60), burst_size(3). -/
def registerRateConfig : GovernorConfig := ⟨60, 3⟩

/-- Modelled from the spec: the policy the spec states as the default, a sustained
rate of 60 admissions per minute, is one quota element replenished per second,
with the same burst capacity 3. Kept for comparison with registerRateConfig. -/
def specRateConfig : GovernorConfig := ⟨1, 3⟩

/-- Per-key limiter cell of the governor GCRA: the theoretical arrival time, in
seconds; a fresh key starts at 0. -/
structure BucketState where
  tat : Nat
deriving DecidableEq, Repr

/-- One admission decision of the governor GCRA for a config with replenish
interval t seconds and burst capacity b: a request arriving at second a is admitted
when a + t*(b-1) is at least the cell's theoretical arrival time, which then
advances by t; a rejected request leaves the cell unchanged. This reproduces the
observable token-bucket contract: b immediate admissions from a full bucket, then
one more each t seconds. -/
def gcraAdmit (cfg : GovernorConfig) (s : BucketState) (a : Nat) :
    Bool × BucketState :=
  let t := cfg.perSecond
  let tau := t * (cfg.burstSize - 1)
  if s.tat ≤ a + tau then (true, ⟨max a s.tat + t⟩) else (false, s)

/-- Run a sequence of arrival times (seconds) through one cell, returning the
admission decisions and the final cell. -/
def gcraAdmitSeq (cfg : GovernorConfig) (s : BucketState) :
    List Nat → List Bool × BucketState
  | [] => ([], s)
  | a :: as2 =>
    let (ok, s2) := gcraAdmit cfg s a
    let (oks, s3) := gcraAdmitSeq cfg s2 as2
    (ok :: oks, s3)

/-- The limiter's shared state: one lazily created cell per client key
(SmartIpKeyExtractor key, main.rs line 56). -/
def LimiterState := List (String × BucketState)

/-- Look up the cell of a key, a fresh cell when the key was never seen. -/
def lookupBucket (st : LimiterState) (k : String) : BucketState :=
  match st.lookup k with
  | some s => s
  | none => ⟨0⟩

/-- Store back the cell of a key. -/
def storeBucket (st : LimiterState) (k : String) (s : BucketState) : LimiterState :=
  (k, s) :: (List.filter (fun p => !(p.1 == k)) st)

/-- One admission check of the governor layer for a client key at a given second. -/
def limiterAdmit (cfg : GovernorConfig) (st : LimiterState) (k : String)
    (a : Nat) : Bool × LimiterState :=
  let (ok, s2) := gcraAdmit cfg (lookupBucket st k) a
  (ok, storeBucket st k s2)

/-- Governor failures crossing the layer boundary (tower_governor GovernorError). -/
inductive GovernorError where
  | tooManyRequests
  | otherError (message : String)
deriving DecidableEq, Repr

/-- error.rs From<BoxError>: a governor TooManyRequests maps to 429 with the fixed
message, anything else to 500 with the error text. -/
def ApiError.ofGovernor : GovernorError → ApiError
  | .tooManyRequests => ⟨429, "too many requests"⟩
  | .otherError msg => ⟨500, msg⟩

/-- The register route as mounted in main.rs api: the governor layer with
registerRateConfig guards add_visitor, keyed by the extracted client key. A
rejected request is answered by the error handler with the TooManyRequests
mapping and never reaches the handler, so the store is untouched. -/
def registerEndpoint (limiter : LimiterState) (clientKey : String)
    (arrival : Nat) (now : Timestamp) (addr : SocketAddr) (headers : Headers)
    (db : DbState) (request : RegisterRequest) :
    Response × LimiterState × DbState :=
  let adm := limiterAdmit registerRateConfig limiter clientKey arrival
  if adm.1 then
    let res := addVisitor now addr headers db request
    (res.1, adm.2, res.2)
  else
    ((ApiError.ofGovernor .tooManyRequests).toResponse, adm.2, db)

/-- Membership is preserved by insertion into an id-sorted list. -/
theorem mem_insertById (x v : DbVisitor) (l : List DbVisitor) :
    x ∈ insertById v l ↔ x = v ∨ x ∈ l := by
  induction l with
  | nil => simp [insertById]
  | cons w ws ih =>
    by_cases h : v.id ≤ w.id
    · simp [insertById, h]
    · simp [insertById, h, ih]
      tauto

/-- Sorting by id does not change the set of rows. -/
theorem mem_sortById (x : DbVisitor) (l : List DbVisitor) :
    x ∈ sortById l ↔ x ∈ l := by
  induction l with
  | nil => simp [sortById]
  | cons v vs ih => simp [sortById, mem_insertById, ih]

/-- Claim C1: a registration request with a valid payload (its forwarded header, if
present, resolves to an ip) and a nick not already in the store returns 201 with no
body, and the store afterwards holds exactly one new row whose nick, group, email
and extra equal the submitted fields and whose created_at is the injected now(). -/
theorem C1_register_success (now : Timestamp) (addr : SocketAddr)
    (headers : Headers) (db : DbState) (request : RegisterRequest) (ip : String)
    (hip : resolveIp headers addr = some ip)
    (hfresh : db.rows.any (fun v => v.nick == request.nick) = false) :
    addVisitor now addr headers db request =
      (⟨201, .empty⟩,
       ⟨db.rows ++ [⟨db.nextId, now, ip, request.nick, request.group,
                     request.email, request.extra⟩],
        db.nextId + 1⟩) := by
  simp [addVisitor, insertVisitor, hip, hfresh]

/-- Witness for C1 at a concrete request. -/
theorem C1_register_success_witness :
    addVisitor 5 ⟨"127.0.0.1", 8080⟩ ⟨[]⟩ ⟨[], 1⟩ ⟨"Test", none, none, none⟩ =
      (⟨201, .empty⟩,
       ⟨[⟨1, 5, "127.0.0.1:8080", "Test", none, none, none⟩], 2⟩) := by
  simpa using C1_register_success 5 ⟨"127.0.0.1", 8080⟩ ⟨[]⟩ ⟨[], 1⟩
    ⟨"Test", none, none, none⟩ "127.0.0.1:8080" (by decide) (by decide)

/-- Claim C2: registering a nick already present in the store (with a resolvable
client ip) returns 400 with the constraint failure message as the json error body,
and the store is unchanged. -/
theorem C2_duplicate_nick (now : Timestamp) (addr : SocketAddr)
    (headers : Headers) (db : DbState) (request : RegisterRequest) (ip : String)
    (hip : resolveIp headers addr = some ip)
    (hdup : db.rows.any (fun v => v.nick == request.nick) = true) :
    addVisitor now addr headers db request =
      (⟨400, .jsonError "(code: 2067) UNIQUE constraint failed: visitor.nick"⟩,
       db) := by
  simp [addVisitor, insertVisitor, hip, hdup, ApiError.ofSqlx, ApiError.toResponse]

/-- Witness for C2: the nick Test is registered twice. -/
theorem C2_duplicate_nick_witness :
    addVisitor 9 ⟨"127.0.0.1", 8080⟩ ⟨[]⟩
        ⟨[⟨1, 5, "127.0.0.1:8080", "Test", none, none, none⟩], 2⟩
        ⟨"Test", some "Testerz", none, none⟩ =
      (⟨400, .jsonError "(code: 2067) UNIQUE constraint failed: visitor.nick"⟩,
       ⟨[⟨1, 5, "127.0.0.1:8080", "Test", none, none, none⟩], 2⟩) := by
  simpa using C2_duplicate_nick 9 ⟨"127.0.0.1", 8080⟩ ⟨[]⟩
    ⟨[⟨1, 5, "127.0.0.1:8080", "Test", none, none, none⟩], 2⟩
    ⟨"Test", some "Testerz", none, none⟩ "127.0.0.1:8080" (by decide) (by decide)

/-- Claim C4: the ip bound into the new row is the first value of the
X-Forwarded-For header when that header is present (and decodes), and otherwise
the peer socket address. -/
theorem C4_ip_resolution (now : Timestamp) (addr : SocketAddr)
    (headers : Headers) (db : DbState) (request : RegisterRequest)
    (hfresh : db.rows.any (fun v => v.nick == request.nick) = false) :
    (∀ v s, headers.xForwardedFor.head? = some v → v.toStr = some s →
      (addVisitor now addr headers db request).2.rows =
        db.rows ++ [⟨db.nextId, now, s, request.nick, request.group,
                     request.email, request.extra⟩]) ∧
    (headers.xForwardedFor.head? = none →
      (addVisitor now addr headers db request).2.rows =
        db.rows ++ [⟨db.nextId, now, addr.toString, request.nick, request.group,
                     request.email, request.extra⟩]) := by
  constructor
  · intro v s hv hs
    simp [addVisitor, insertVisitor, resolveIp, hv, hs, hfresh]
  · intro hv
    simp [addVisitor, insertVisitor, resolveIp, hv, hfresh]

/-- Witness for C4: with two forwarded values the first one is stored. -/
theorem C4_ip_resolution_witness :
    (addVisitor 5 ⟨"127.0.0.1", 8080⟩ ⟨[⟨"1.2.3.4"⟩, ⟨"5.6.7.8"⟩]⟩ ⟨[], 1⟩
        ⟨"Test", none, none, none⟩).2.rows =
      [⟨1, 5, "1.2.3.4", "Test", none, none, none⟩] := by
  simpa using (C4_ip_resolution 5 ⟨"127.0.0.1", 8080⟩ ⟨[⟨"1.2.3.4"⟩, ⟨"5.6.7.8"⟩]⟩
    ⟨[], 1⟩ ⟨"Test", none, none, none⟩ (by decide)).1 ⟨"1.2.3.4"⟩ "1.2.3.4"
    rfl (by decide)

/-- Claim C5: the public list depends only on the id, nick and group of each row;
two stores agreeing on those produce identical responses, so email, extra, ip and
created_at are never disclosed by the public endpoint. -/
theorem C5_public_view_noninterference (db1 db2 : DbState)
    (h : db1.rows.map (fun v => (v.id, v.nick, v.group)) =
         db2.rows.map (fun v => (v.id, v.nick, v.group))) :
    listVisitors db1 = listVisitors db2 := by
  unfold listVisitors
  have h2 := congrArg
    (List.map (fun t : Int × String × Option String =>
      (⟨t.1, t.2.1, t.2.2⟩ : Visitor))) h
  simpa [List.map_map, Function.comp] using h2

/-- Witness for C5: two stores differing in email, extra, ip and created_at but
agreeing on the public fields give the same public response. -/
theorem C5_public_view_noninterference_witness :
    listVisitors ⟨[⟨1, 5, "127.0.0.1:8080", "Test", none, none, none⟩], 2⟩ =
      listVisitors ⟨[⟨1, 99, "10.9.9.9:1234", "Test", none,
                      some "secret@example.com", some "Snacks"⟩], 2⟩ :=
  C5_public_view_noninterference
    ⟨[⟨1, 5, "127.0.0.1:8080", "Test", none, none, none⟩], 2⟩
    ⟨[⟨1, 99, "10.9.9.9:1234", "Test", none,
       some "secret@example.com", some "Snacks"⟩], 2⟩ (by decide)

/-- Claim C6: with no admin token configured, every admin request gets the same
response as an unmatched path and the store is untouched; with a token configured,
a request whose bearer credential is absent or wrong gets 401, the store is
unchanged, and the response does not depend on the store at all, so no handler,
store read or delete ran. -/
theorem C6_admin_gate (authorization : Option String) (req : AdminRequest)
    (db : DbState) (key : String)
    (hbad : bearerValid key authorization = false) :
    adminRoutes none authorization req db = (unmatchedRouteResponse, db) ∧
    adminRoutes (some key) authorization req db = (⟨401, .empty⟩, db) ∧
    (∀ db2 : DbState,
      (adminRoutes (some key) authorization req db2).1 = ⟨401, .empty⟩) := by
  refine ⟨rfl, ?_, ?_⟩
  · simp [adminRoutes, hbad]
  · intro db2
    simp [adminRoutes, hbad]

/-- Witness for C6: the wrong bearer credential of the repository tests. -/
theorem C6_admin_gate_witness :
    adminRoutes none (some "Bearer invalidkey") .listVisitors ⟨[], 1⟩ =
      (unmatchedRouteResponse, ⟨[], 1⟩) ∧
    adminRoutes (some "key") (some "Bearer invalidkey") .listVisitors ⟨[], 1⟩ =
      (⟨401, .empty⟩, ⟨[], 1⟩) := by
  have h := C6_admin_gate (some "Bearer invalidkey") .listVisitors ⟨[], 1⟩ "key"
    (by decide)
  exact ⟨h.1, h.2.1⟩

/-- Claim C7: an authorized delete of an existing id answers 204 and the remaining
store holds no row with that id; an authorized delete of an unknown id answers 404
and leaves the store unchanged. -/
theorem C7_delete_visitor (key : String) (id : Int) (db : DbState) :
    (db.rows.any (fun v => v.id == id) = true →
      (adminRoutes (some key) (some ("Bearer " ++ key))
          (.deleteVisitor id) db).1 = ⟨204, .empty⟩ ∧
      (adminRoutes (some key) (some ("Bearer " ++ key))
          (.deleteVisitor id) db).2.rows.all (fun v => !(v.id == id)) = true) ∧
    (db.rows.any (fun v => v.id == id) = false →
      adminRoutes (some key) (some ("Bearer " ++ key))
        (.deleteVisitor id) db = (⟨404, .empty⟩, db)) := by
  have hval : bearerValid key (some ("Bearer " ++ key)) = true := by
    simp [bearerValid]
  constructor
  · intro hex
    have hcount : db.rows.countP (fun v => v.id == id) ≠ 0 := by
      intro h0
      rcases List.any_eq_true.mp hex with ⟨v, hv, hvid⟩
      exact absurd hvid (by simpa using (List.countP_eq_zero.mp h0) v hv)
    constructor
    · simp [adminRoutes, hval, adminHandle, deleteVisitor, hcount]
    · simp [adminRoutes, hval, adminHandle, deleteVisitor, hcount,
        List.all_eq_true, List.mem_filter]
  · intro hnone
    have hcount : db.rows.countP (fun v => v.id == id) = 0 := by
      apply List.countP_eq_zero.mpr
      intro v hv
      simpa using (List.any_eq_false.mp hnone) v hv
    have hfilter : db.rows.filter (fun v => !(v.id == id)) = db.rows := by
      apply List.filter_eq_self.mpr
      intro v hv
      simpa using (List.any_eq_false.mp hnone) v hv
    simp [adminRoutes, hval, adminHandle, deleteVisitor, hcount, hfilter]

/-- Witness for C7: deleting the present id 1 answers 204 and empties the store;
deleting the absent id 7 answers 404 and changes nothing. -/
theorem C7_delete_visitor_witness :
    ((adminRoutes (some "key") (some "Bearer key") (.deleteVisitor 1)
        ⟨[⟨1, 5, "127.0.0.1:8080", "Groupless", none, none, none⟩], 2⟩).1 =
      ⟨204, .empty⟩) ∧
    (adminRoutes (some "key") (some "Bearer key") (.deleteVisitor 7)
        ⟨[⟨1, 5, "127.0.0.1:8080", "Groupless", none, none, none⟩], 2⟩ =
      (⟨404, .empty⟩,
       ⟨[⟨1, 5, "127.0.0.1:8080", "Groupless", none, none, none⟩], 2⟩)) := by
  have h1 := C7_delete_visitor "key" 1
    ⟨[⟨1, 5, "127.0.0.1:8080", "Groupless", none, none, none⟩], 2⟩
  have h7 := C7_delete_visitor "key" 7
    ⟨[⟨1, 5, "127.0.0.1:8080", "Groupless", none, none, none⟩], 2⟩
  exact ⟨(h1.1 (by decide)).1, h7.2 (by decide)⟩

/-- Claim C8: a registration request the limiter rejects is answered 429 with the
fixed json message, the limiter state advances as the limiter dictates, and the
store is untouched; the rejection is the TooManyRequests mapping, not a generic
failure. -/
theorem C8_rate_limited (limiter : LimiterState) (clientKey : String)
    (arrival : Nat) (now : Timestamp) (addr : SocketAddr) (headers : Headers)
    (db : DbState) (request : RegisterRequest)
    (hrej : (limiterAdmit registerRateConfig limiter clientKey arrival).1
      = false) :
    registerEndpoint limiter clientKey arrival now addr headers db request =
      (⟨429, .jsonError "too many requests"⟩,
       (limiterAdmit registerRateConfig limiter clientKey arrival).2, db) := by
  simp [registerEndpoint, hrej, ApiError.ofGovernor, ApiError.toResponse]

/-- Witness for C8: a client whose burst is exhausted is rejected and the store
keeps its single row. -/
theorem C8_rate_limited_witness :
    (limiterAdmit registerRateConfig [("10.0.0.1", ⟨180⟩)] "10.0.0.1" 0).1
      = false ∧
    registerEndpoint [("10.0.0.1", ⟨180⟩)] "10.0.0.1" 0 5 ⟨"10.0.0.1", 4242⟩
        ⟨[]⟩ ⟨[⟨1, 0, "10.0.0.1:4242", "Three", none, none, none⟩], 2⟩
        ⟨"Four should fail", none, none, none⟩ =
      (⟨429, .jsonError "too many requests"⟩,
       (limiterAdmit registerRateConfig [("10.0.0.1", ⟨180⟩)] "10.0.0.1" 0).2,
       ⟨[⟨1, 0, "10.0.0.1:4242", "Three", none, none, none⟩], 2⟩) :=
  ⟨by decide,
   C8_rate_limited [("10.0.0.1", ⟨180⟩)] "10.0.0.1" 0 5 ⟨"10.0.0.1", 4242⟩
     ⟨[]⟩ ⟨[⟨1, 0, "10.0.0.1:4242", "Three", none, none, none⟩], 2⟩
     ⟨"Four should fail", none, none, none⟩ (by decide)⟩

/-- Claim C3 counterexample: the register limiter does not refill 60 admissions per
minute. A bucket refilling one admission per second (specRateConfig, the rate the
claim states) admits a fourth request 59 seconds after a burst of three, but the
limiter built in main.rs (per_second(60), i.e. one quota element per 60 seconds)
still rejects it; its replenish interval is 60 seconds, not one. -/
theorem C3_counterexample :
    (gcraAdmitSeq specRateConfig ⟨0⟩ [0, 0, 0, 59]).1 =
      [true, true, true, true] ∧
    (gcraAdmitSeq registerRateConfig ⟨0⟩ [0, 0, 0, 59]).1 =
      [true, true, true, false] ∧
    registerRateConfig.perSecond = 60 ∧
    specRateConfig.perSecond = 1 := by
  decide

/-- Claim C3 as amended: the register limiter is a per-client token bucket with
burst capacity 3 and a sustained refill of one admission per 60 seconds. Three
requests at one instant are admitted and leave the client's cell at 180; the
fourth within the burst window is answered 429 while a distinct client key at the
same instant is admitted; the next admission for the first client comes 60
seconds after the burst, not before. -/
theorem C3_amended_token_bucket :
    registerRateConfig = ⟨60, 3⟩ ∧
    (gcraAdmitSeq registerRateConfig ⟨0⟩ [0, 0, 0, 0]).1 =
      [true, true, true, false] ∧
    (gcraAdmitSeq registerRateConfig ⟨0⟩ [0, 0, 0, 59, 60]).1 =
      [true, true, true, false, true] ∧
    (gcraAdmitSeq registerRateConfig ⟨0⟩ [0, 0, 0]).2 = ⟨180⟩ ∧
    (registerEndpoint [("10.0.0.1", ⟨180⟩)] "10.0.0.1" 0 5 ⟨"10.0.0.1", 4242⟩
        ⟨[]⟩ ⟨[], 1⟩ ⟨"Four should fail", none, none, none⟩).1 =
      ⟨429, .jsonError "too many requests"⟩ ∧
    (registerEndpoint [("10.0.0.1", ⟨180⟩)] "10.0.0.2" 0 5 ⟨"10.0.0.2", 4242⟩
        ⟨[]⟩ ⟨[], 1⟩ ⟨"Distinct client", none, none, none⟩).1 =
      ⟨201, .empty⟩ := by
  decide

/-- Claim C9 counterexample: a registration whose nick is the empty string is
accepted: it returns 201 and creates the row, because the deserialized nick is an
unvalidated string and the NOT NULL and UNIQUE constraints are satisfied by an
empty string on a store without one. -/
theorem C9_counterexample :
    addVisitor 5 ⟨"127.0.0.1", 8080⟩ ⟨[]⟩ ⟨[], 1⟩ ⟨"", none, none, none⟩ =
      (⟨201, .empty⟩,
       ⟨[⟨1, 5, "127.0.0.1:8080", "", none, none, none⟩], 2⟩) := by
  decide

/-- Claim C9 as amended: the nick field is required, in that a payload without it
fails to deserialize, but it is not required to be non-empty: an empty-string nick
on a store without one is accepted with 201 and a row with the empty nick is
created. -/
theorem C9_amended_nick_required (group email extra : Option String)
    (now : Timestamp) (addr : SocketAddr) (db : DbState)
    (hfresh : db.rows.any (fun v => v.nick == "") = false) :
    parseRegisterRequest none group email extra = none ∧
    parseRegisterRequest (some "") group email extra =
      some ⟨"", group, email, extra⟩ ∧
    addVisitor now addr ⟨[]⟩ db ⟨"", group, email, extra⟩ =
      (⟨201, .empty⟩,
       ⟨db.rows ++ [⟨db.nextId, now, addr.toString, "", group, email, extra⟩],
        db.nextId + 1⟩) := by
  refine ⟨rfl, rfl, ?_⟩
  simp [addVisitor, insertVisitor, resolveIp, hfresh]

/-- Witness for amended C9 at a concrete request. -/
theorem C9_amended_nick_required_witness :
    parseRegisterRequest none none none none = none ∧
    parseRegisterRequest (some "") none none none =
      some ⟨"", none, none, none⟩ ∧
    addVisitor 5 ⟨"127.0.0.1", 8080⟩ ⟨[]⟩ ⟨[], 1⟩ ⟨"", none, none, none⟩ =
      (⟨201, .empty⟩,
       ⟨[] ++ [⟨1, 5, SocketAddr.toString ⟨"127.0.0.1", 8080⟩, "",
               none, none, none⟩], 1 + 1⟩) :=
  C9_amended_nick_required none none none 5 ⟨"127.0.0.1", 8080⟩ ⟨[], 1⟩
    (by decide)

/-- Claim C10: without a forwarded header the stored ip is the peer address
rendered with its port, a string distinct from the bare IP, and the authorized
admin list returns rows whose ip field carries exactly that string. -/
theorem C10_ip_includes_port (now : Timestamp) (addr : SocketAddr)
    (db : DbState) (request : RegisterRequest) (key : String)
    (hfresh : db.rows.any (fun v => v.nick == request.nick) = false) :
    (addVisitor now addr ⟨[]⟩ db request).2.rows =
      db.rows ++ [⟨db.nextId, now, addr.ip ++ ":" ++ Nat.repr addr.port,
                   request.nick, request.group, request.email, request.extra⟩] ∧
    addr.toString ≠ addr.ip ∧
    (adminRoutes (some key) (some ("Bearer " ++ key)) .listVisitors
        (addVisitor now addr ⟨[]⟩ db request).2).1 =
      ⟨200, .adminList (sortById (addVisitor now addr ⟨[]⟩ db request).2.rows)⟩ ∧
    (⟨db.nextId, now, addr.toString, request.nick, request.group,
      request.email, request.extra⟩ : DbVisitor) ∈
      sortById (addVisitor now addr ⟨[]⟩ db request).2.rows := by
  have hrows : (addVisitor now addr ⟨[]⟩ db request).2.rows =
      db.rows ++ [⟨db.nextId, now, addr.toString, request.nick, request.group,
                   request.email, request.extra⟩] := by
    simp [addVisitor, insertVisitor, resolveIp, hfresh]
  refine ⟨by simpa [SocketAddr.toString] using hrows, ?_, ?_, ?_⟩
  · intro h
    have hlen := congrArg String.length h
    simp [SocketAddr.toString, String.length_append] at hlen
    have hcolon : String.length ":" = 1 := rfl
    omega
  · simp [adminRoutes, bearerValid, adminHandle, adminListVisitors]
  · rw [hrows, mem_sortById]
    simp

/-- Witness for C10 at a concrete registration from 127.0.0.1 port 8080. -/
theorem C10_ip_includes_port_witness :
    (addVisitor 5 ⟨"127.0.0.1", 8080⟩ ⟨[]⟩ ⟨[], 1⟩
        ⟨"Test", none, none, none⟩).2.rows =
      [] ++ [⟨1, 5, "127.0.0.1" ++ ":" ++ Nat.repr 8080,
             "Test", none, none, none⟩] ∧
    SocketAddr.toString ⟨"127.0.0.1", 8080⟩ ≠ "127.0.0.1" ∧
    (adminRoutes (some "key") (some ("Bearer " ++ "key")) .listVisitors
        (addVisitor 5 ⟨"127.0.0.1", 8080⟩ ⟨[]⟩ ⟨[], 1⟩
          ⟨"Test", none, none, none⟩).2).1 =
      ⟨200, .adminList (sortById (addVisitor 5 ⟨"127.0.0.1", 8080⟩ ⟨[]⟩ ⟨[], 1⟩
        ⟨"Test", none, none, none⟩).2.rows)⟩ ∧
    (⟨1, 5, SocketAddr.toString ⟨"127.0.0.1", 8080⟩, "Test",
      none, none, none⟩ : DbVisitor) ∈
      sortById (addVisitor 5 ⟨"127.0.0.1", 8080⟩ ⟨[]⟩ ⟨[], 1⟩
        ⟨"Test", none, none, none⟩).2.rows :=
  C10_ip_includes_port 5 ⟨"127.0.0.1", 8080⟩ ⟨[], 1⟩
    ⟨"Test", none, none, none⟩ "key" (by decide)

end PartyApi
